import Mathlib

/-!
Shallow embedding of `Speech_Recognition_System.py`.

The script is sequential glue around external effects (filesystem, the
`wave` reader, `pydub` MP3 conversion, the Google speech API).  Each
external effect is a field of an `Env` record; Python exceptions are
modelled as `Except String`; the observable behaviour of a run (printed
lines, produced report, files written, an uncaught exception) is a list
of `Event`s plus the resulting disk state.

Python string operations used by the script (`strip`, `lower`,
`split('.')`, `replace`) are modelled character-exactly on `List Char`
(ASCII case folding, as in the source's use on file extensions).
Python's 2-decimal `round` is modelled on `ℚ` with round-half-to-even.
-/

/-- Exceptions are carried as their rendered message. -/
abbrev PyExn := String

/-! ## Python string primitives -/

/-- Characters stripped by Python's `str.strip()` (ASCII whitespace). -/
def isPySpace (c : Char) : Bool :=
  c = ' ' || c = '\t' || c = '\n' || c = '\r' || c = Char.ofNat 11 || c = Char.ofNat 12

/-- Model of `str.strip()`: drop whitespace from both ends. -/
def pyStrip (s : String) : String :=
  ⟨((s.data.dropWhile isPySpace).reverse.dropWhile isPySpace).reverse⟩

/-- ASCII lowercasing of one character, as Python's `str.lower()` acts on
the ASCII range used by the script. -/
def pyLowerChar (c : Char) : Char :=
  if 65 ≤ c.toNat ∧ c.toNat ≤ 90 then Char.ofNat (c.toNat + 32) else c

/-- Model of `str.lower()`. -/
def pyLower (s : String) : String :=
  ⟨s.data.map pyLowerChar⟩

/-- Model of `str.split('.')` on the character list: split at every dot. -/
def splitOnDot : List Char → List (List Char)
  | [] => [[]]
  | c :: rest =>
    let r := splitOnDot rest
    if c = '.' then [] :: r
    else
      match r with
      | [] => [[c]]
      | h :: t => (c :: h) :: t

/-- Model of `path.split('.')[-1]`: the segment after the last dot (the
whole string when there is no dot). -/
def lastDotSegment (s : String) : String :=
  ⟨(splitOnDot s.data).getLastD []⟩

/-- The extension the script derives: `file_path.split('.')[-1].lower()`. -/
def pyExt (s : String) : String :=
  pyLower (lastDotSegment s)

/-- Worker for `replaceList`; the fuel argument makes the recursion
structural and is always instantiated with the input length, which each
step strictly decreases. -/
def replaceListAux (pat rep : List Char) : ℕ → List Char → List Char
  | 0, l => l
  | _ + 1, [] => []
  | fuel + 1, c :: rest =>
    if pat.isPrefixOf (c :: rest) then
      rep ++ replaceListAux pat rep fuel (List.drop (pat.length - 1) rest)
    else
      c :: replaceListAux pat rep fuel rest

/-- Model of `str.replace(pat, rep)`: replace every non-overlapping
occurrence, scanning left to right. -/
def replaceList (pat rep l : List Char) : List Char :=
  replaceListAux pat rep l.length l

/-- Model of `str.replace` on `String`. -/
def pyReplace (s pat rep : String) : String :=
  ⟨replaceList pat.data rep.data s.data⟩

/-! ## Python 2-decimal rounding -/

/-- Round-half-to-even on rationals, Python's rounding mode for `round`. -/
def roundHalfEven (x : ℚ) : ℤ :=
  if x - (⌊x⌋ : ℚ) < 1/2 then ⌊x⌋
  else if 1/2 < x - (⌊x⌋ : ℚ) then ⌊x⌋ + 1
  else if ⌊x⌋ % 2 = 0 then ⌊x⌋ else ⌊x⌋ + 1

/-- Model of Python's `round(x, 2)`. -/
def pyRound2 (x : ℚ) : ℚ :=
  (roundHalfEven (x * 100) : ℚ) / 100

/-! ## Data model and environment -/

/-- Header metadata of a WAV container: `getnframes` and `getframerate`. -/
structure WavInfo where
  nframes : ℕ
  framerate : ℕ
  deriving DecidableEq

/-- Outcome of `recognizer.recognize_google` on the recorded audio. -/
inductive RecResult where
  /-- recognition succeeded with this text -/
  | success (text : String)
  /-- `sr.UnknownValueError`: audio not confidently recognizable -/
  | unknownValue
  /-- `sr.RequestError` with this rendered cause -/
  | requestError (e : String)
  deriving DecidableEq

/-- The external world as the script observes it.  Each field is one
external call site; `Except` failure means that call raises. -/
structure Env where
  /-- `os.path.exists` -/
  fsExists : String → Bool
  /-- `wave.open(path, 'r')` plus the two metadata reads -/
  wavRead : String → Except PyExn WavInfo
  /-- `AudioSegment.from_mp3(path)` followed by `sound.export` -/
  mp3Convert : String → Except PyExn Unit
  /-- `sr.AudioFile(path)` context entry plus `recognizer.record` -/
  audioLoad : String → Except PyExn Unit
  /-- `recognizer.recognize_google` on the audio recorded from this path -/
  recognize : String → RecResult
  /-- `open(name, 'w')` for the report file -/
  fileOpenWrite : String → Except PyExn Unit
  /-- rendering of `datetime.datetime.now()` under a fixed clock -/
  now : String

/-- File contents by name; `none` is an absent file. -/
abbrev Disk := String → Option String

/-- Overwrite (or create) one file. -/
def diskWrite (d : Disk) (name contents : String) : Disk :=
  fun m => if m = name then some contents else d m

/-- Opaque model of the WAV bytes `sound.export` writes for this source. -/
def wavContentOf (src : String) : String :=
  "wav-data-decoded-from:" ++ src

/-- Observable steps of one run. -/
inductive Event where
  /-- a line printed to the console -/
  | printed (s : String)
  /-- an interactive prompt shown to the user -/
  | prompted (s : String)
  /-- a successful MP3-to-WAV conversion from `src` written at `dst` -/
  | converted (src dst : String)
  /-- the report text was assembled -/
  | reportProduced (r : String)
  /-- a file was written with these contents -/
  | fileWritten (name contents : String)
  /-- an exception escaped `main` -/
  | crashed (e : PyExn)
  deriving DecidableEq

/-- The three interactive answers a run consumes. -/
structure MainInput where
  filePathRaw : String
  saveChoiceRaw : String
  outputFileRaw : String

/-! ## Duration estimator (`get_audio_duration`) -/

/-- Count of open audio file handles, for the resource-safety claim. -/
structure FileState where
  openCount : ℕ
  deriving DecidableEq

/-- Body of the `with` block: `getnframes`, `getframerate`, then
`round(frames / float(rate), 2)`; a zero rate raises `ZeroDivisionError`. -/
def durationBody (info : WavInfo) : Except PyExn ℚ :=
  if info.framerate = 0 then .error "float division by zero"
  else .ok (pyRound2 ((info.nframes : ℚ) / (info.framerate : ℚ)))

/-- Semantics of `with contextlib.closing(wave.open(path, 'r')) as f: ...`:
a failing open acquires nothing; a successful open acquires a handle that
`closing` releases on both the normal and the raising exit of the body. -/
def withClosingWav (env : Env) (path : String) (s : FileState) :
    Except PyExn ℚ × FileState :=
  match env.wavRead path with
  | .error e => (.error e, s)
  | .ok info =>
    let opened : FileState := ⟨s.openCount + 1⟩
    match durationBody info with
    | .ok d => (.ok d, ⟨opened.openCount - 1⟩)
    | .error e => (.error e, ⟨opened.openCount - 1⟩)

/-- Warning line printed by `get_audio_duration` on failure. -/
def durWarn (e : PyExn) : String :=
  "Warning: Could not calculate duration: " ++ e

/-- Embedding of `get_audio_duration`, with the handle state threaded
through: result value, warning lines printed, final handle state. -/
def get_audio_duration_st (env : Env) (path : String) (s : FileState) :
    (ℚ × List String) × FileState :=
  match withClosingWav env path s with
  | (.ok d, s1) => ((d, []), s1)
  | (.error e, s1) => ((0, [durWarn e]), s1)

/-- Embedding of `get_audio_duration` as `main` calls it. -/
def get_audio_duration (env : Env) (path : String) : ℚ × List String :=
  (get_audio_duration_st env path ⟨0⟩).1

/-! ## Transcription client (`transcribe_audio`) -/

/-- Fixed warning returned on `sr.UnknownValueError`. -/
def unclearMsg : String :=
  "Warning: Audio was not clear enough to recognize."

/-- Error string returned on `sr.RequestError e`. -/
def apiErrMsg (e : String) : String :=
  "Error: Could not reach Google API: " ++ e

/-- Embedding of `transcribe_audio`.  The `with sr.AudioFile(path)` load
stands before the `try`, so a load failure propagates as `.error`; the
`try` block around `recognize_google` maps the three service outcomes to
strings. -/
def transcribe_audio (env : Env) (path : String) : Except PyExn String :=
  match env.audioLoad path with
  | .error e => .error e
  | .ok _ =>
    match env.recognize path with
    | .success t => .ok t
    | .unknownValue => .ok unclearMsg
    | .requestError e => .ok (apiErrMsg e)

/-! ## Report formatter and persistence -/

/-- The `"=" * 70` banner line. -/
def bannerLine : String :=
  ⟨List.replicate 70 '='⟩

/-- Rendering of the duration value inside the report. -/
def durRender (q : ℚ) : String :=
  toString q

/-- The report block assembled at lines 85-93 of the source, as a function
of path, duration, clock reading and transcription text. -/
def formatReport (path : String) (duration : ℚ) (now : String)
    (text : String) : String :=
  "\n" ++ bannerLine ++ "\n"
    ++ "TRANSCRIPTION REPORT\n"
    ++ bannerLine ++ "\n"
    ++ "File Name     : " ++ path ++ "\n"
    ++ "Duration      : " ++ durRender duration ++ " seconds\n"
    ++ "Time Processed: " ++ now ++ "\n"
    ++ "\nTranscribed Text:\n\n"
    ++ text ++ "\n"
    ++ bannerLine

/-- The save prompt shown before reading the filename. -/
def savePrompt : String :=
  "Enter filename to save (e.g., output.txt): "

/-- The save step of `main` (lines 99-107): strip and lowercase the
answer, and only on `"y"` prompt for a filename and write the report. -/
def saveStep (env : Env) (inp : MainInput) (report : String)
    (acc : List Event × Disk) : List Event × Disk :=
  let save_choice := pyLower (pyStrip inp.saveChoiceRaw)
  if save_choice = "y" then
    let output_file := pyStrip inp.outputFileRaw
    match env.fileOpenWrite output_file with
    | .ok _ =>
      (acc.1 ++ [.prompted savePrompt,
                 .fileWritten output_file report,
                 .printed ("Transcription saved to '" ++ output_file ++ "'")],
       diskWrite acc.2 output_file report)
    | .error e =>
      (acc.1 ++ [.prompted savePrompt,
                 .printed ("Error saving file: " ++ e)],
       acc.2)
  else
    acc

/-! ## Main pipeline -/

/-- Lines 77-96 of `main`: duration, transcription, report, save — run on
the working path after the conversion branch. -/
def mainRest (env : Env) (inp : MainInput) (disk : Disk)
    (file_path : String) (ev0 : List Event) : List Event × Disk :=
  let dur := get_audio_duration env file_path
  let duration := dur.1
  let ev1 := ev0 ++ dur.2.map .printed
      ++ [.printed ("Audio Duration: " ++ durRender duration ++ " seconds")]
  match transcribe_audio env file_path with
  | .error e => (ev1 ++ [.crashed e], disk)
  | .ok transcription =>
    let report := formatReport file_path duration env.now transcription
    saveStep env inp report
      (ev1 ++ [.reportProduced report, .printed report], disk)

/-- Embedding of `main`: strip the entered path, check existence, take the
MP3 branch when the derived lowercase extension is `"mp3"`, then hand the
working path to the rest of the pipeline. -/
def mainProgram (env : Env) (inp : MainInput) (disk : Disk) : List Event × Disk :=
  let file_path := pyStrip inp.filePathRaw
  if env.fsExists file_path then
    let ext := pyExt file_path
    if ext = "mp3" then
      match env.mp3Convert file_path with
      | .error e =>
        ([.printed "Converting MP3 to WAV...",
          .printed ("Error during conversion: " ++ e)], disk)
      | .ok _ =>
        let wav_file := pyReplace file_path ".mp3" ".wav"
        mainRest env inp (diskWrite disk wav_file (wavContentOf file_path))
          wav_file
          [.printed "Converting MP3 to WAV...",
           .converted file_path wav_file,
           .printed ("Conversion complete: " ++ wav_file)]
    else
      mainRest env inp disk file_path []
  else
    ([.printed "Error: File not found."], disk)

/-! ## Concrete environments and disks for witnesses and counterexamples -/

/-- A fixed clock reading. -/
def fixedNow : String := "2026-10-12 09:00:00.000000"

/-- An environment in which every external call succeeds. -/
def envHappy : Env where
  fsExists := fun _ => true
  wavRead := fun _ => .ok ⟨80000, 16000⟩
  mp3Convert := fun _ => .ok ()
  audioLoad := fun _ => .ok ()
  recognize := fun _ => .success "hello world"
  fileOpenWrite := fun _ => .ok ()
  now := fixedNow

/-- Loading the audio for transcription raises. -/
def envLoadFail : Env :=
  { envHappy with audioLoad := fun _ => .error "audio file could not be read as PCM WAV" }

/-- Opening the WAV container for the duration read raises. -/
def envWavFail : Env :=
  { envHappy with wavRead := fun _ => .error "file does not start with RIFF id" }

/-- The recognition service finds the audio unintelligible. -/
def envUnk : Env :=
  { envHappy with recognize := fun _ => .unknownValue }

/-- The recognition service is unreachable. -/
def envReq : Env :=
  { envHappy with recognize := fun _ => .requestError "recognition connection failed" }

/-- The entered path does not exist. -/
def envMissing : Env :=
  { envHappy with fsExists := fun _ => false }

/-- MP3 decoding fails. -/
def envConvFail : Env :=
  { envHappy with mp3Convert := fun _ => .error "Decoding failed. ffmpeg returned error code: 1" }

/-- A disk with no files. -/
def diskEmpty : Disk := fun _ => none

/-- A disk holding only the original MP3 bytes of `VOICE.MP3`. -/
def diskVoice : Disk :=
  fun n => if n = "VOICE.MP3" then some "original mp3 bytes" else none

/-! ## Helper lemmas -/

theorem toNat_ofNat_of_valid {n : Nat} (h : n.isValidChar) : (Char.ofNat n).toNat = n := by
  simp [Char.ofNat, h, Char.ofNatAux, Char.toNat, UInt32.toNat]

theorem pyLowerChar_eq_y (c : Char) : pyLowerChar c = 'y' ↔ c = 'y' ∨ c = 'Y' := by
  constructor
  · intro h
    unfold pyLowerChar at h
    split at h
    · rename_i hr
      right
      have hv : (c.toNat + 32).isValidChar := by
        left
        omega
      have h2 : (Char.ofNat (c.toNat + 32)).toNat = c.toNat + 32 := toNat_ofNat_of_valid hv
      rw [h] at h2
      have hy : Char.toNat 'y' = 121 := by decide
      have h89 : c.toNat = 89 := by omega
      apply Char.ext
      exact UInt32.toNat.inj (by simpa using h89)
    · left
      exact h
  · rintro (rfl | rfl) <;> decide

theorem pyLower_eq_y (s : String) : pyLower s = "y" ↔ s = "y" ∨ s = "Y" := by
  obtain ⟨l⟩ := s
  constructor
  · intro h
    have hd : l.map pyLowerChar = ['y'] := congrArg String.data h
    cases l with
    | nil => simp at hd
    | cons c t =>
      cases t with
      | nil =>
        have hc : pyLowerChar c = 'y' := by simpa using hd
        rcases (pyLowerChar_eq_y c).1 hc with rfl | rfl
        · left; rfl
        · right; rfl
      | cons c2 t2 => simp at hd
  · rintro (h | h) <;> (rw [h]; decide)

theorem roundHalfEven_intCast (z : ℤ) : roundHalfEven (z : ℚ) = z := by
  simp [roundHalfEven]

theorem roundHalfEven_nonneg {x : ℚ} (h : 0 ≤ x) : 0 ≤ roundHalfEven x := by
  have hf : 0 ≤ ⌊x⌋ := Int.floor_nonneg.mpr h
  unfold roundHalfEven
  split_ifs <;> omega

theorem pyRound2_nonneg {x : ℚ} (h : 0 ≤ x) : 0 ≤ pyRound2 x := by
  unfold pyRound2
  have := roundHalfEven_nonneg (x := x * 100) (by positivity)
  positivity

theorem splitOnDot_no_dot {l : List Char} (h : '.' ∉ l) : splitOnDot l = [l] := by
  induction l with
  | nil => rfl
  | cons c rest ih =>
    have hc : ¬ c = '.' := fun hc => h (hc ▸ List.mem_cons_self c rest)
    have hr : '.' ∉ rest := fun hm => h (List.mem_cons_of_mem c hm)
    simp [splitOnDot, hc, ih hr]

theorem saveStep_mem (env : Env) (inp : MainInput) (report : String)
    (acc : List Event × Disk) (x : Event) (hx : x ∈ acc.1) :
    x ∈ (saveStep env inp report acc).1 := by
  simp only [saveStep]
  split
  · rcases henv : env.fileOpenWrite (pyStrip inp.outputFileRaw) with e | u <;>
      simp [henv, hx]
  · exact hx

/-! ## Claim theorems -/

/-- C1 (amended): every outcome of the recognition step — success,
unintelligible audio, unreachable service — is mapped by
`transcribe_audio` to a returned string; but an exception raised while
loading the audio file stands before the `try` block, is not caught, and
propagates out of `transcribe_audio`. -/
theorem C1_recognition_outcomes_mapped_load_escapes (env : Env) (path : String) :
    (∀ u : Unit, env.audioLoad path = .ok u →
      ∃ s : String, transcribe_audio env path = .ok s) ∧
    (∀ e : PyExn, env.audioLoad path = .error e →
      transcribe_audio env path = .error e) := by
  constructor
  · intro u h
    rcases hr : env.recognize path with t | _ | e
    · exact ⟨t, by simp [transcribe_audio, h, hr]⟩
    · exact ⟨unclearMsg, by simp [transcribe_audio, h, hr]⟩
    · exact ⟨apiErrMsg e, by simp [transcribe_audio, h, hr]⟩
  · intro e h
    simp [transcribe_audio, h]

/-- C1 as stated is false: in an environment where the audio file cannot
be loaded, the load exception escapes `transcribe_audio` instead of being
mapped to a textual result. -/
theorem C1_load_exception_escapes :
    transcribe_audio envLoadFail "corrupt.wav"
      = .error "audio file could not be read as PCM WAV" := rfl

/-- Witness for the amended C1 theorem at concrete environments. -/
theorem C1_recognition_outcomes_mapped_load_escapes_witness :
    envHappy.audioLoad "sample.wav" = .ok () ∧
    (∃ s : String, transcribe_audio envHappy "sample.wav" = .ok s) ∧
    envLoadFail.audioLoad "corrupt.wav"
      = .error "audio file could not be read as PCM WAV" ∧
    transcribe_audio envLoadFail "corrupt.wav"
      = .error "audio file could not be read as PCM WAV" :=
  ⟨rfl,
   (C1_recognition_outcomes_mapped_load_escapes envHappy "sample.wav").1 () rfl,
   rfl,
   (C1_recognition_outcomes_mapped_load_escapes envLoadFail "corrupt.wav").2 _ rfl⟩

/-- C2 fails on the code: for the existing file `VOICE.MP3` the derived
lowercase extension is `mp3` and conversion succeeds, but `str.replace`
is case-sensitive, so `file_path.replace(".mp3", ".wav")` leaves the path
unchanged: the export target is the original path itself, the working
path does not end in `.wav`, and the original file on disk is overwritten
with the exported WAV data. -/
theorem C2_uppercase_mp3_clobbers_source :
    pyExt "VOICE.MP3" = "mp3" ∧
    pyReplace "VOICE.MP3" ".mp3" ".wav" = "VOICE.MP3" ∧
    List.isSuffixOf ".wav".data (pyReplace "VOICE.MP3" ".mp3" ".wav").data = false ∧
    Event.converted "VOICE.MP3" "VOICE.MP3"
      ∈ (mainProgram envHappy ⟨"VOICE.MP3", "n", "out.txt"⟩ diskVoice).1 ∧
    (mainProgram envHappy ⟨"VOICE.MP3", "n", "out.txt"⟩ diskVoice).2 "VOICE.MP3"
      = some (wavContentOf "VOICE.MP3") ∧
    diskVoice "VOICE.MP3" = some "original mp3 bytes" ∧
    wavContentOf "VOICE.MP3" ≠ "original mp3 bytes" := by
  refine ⟨by decide, by decide, by decide, by decide, by decide, by decide, by decide⟩

/-- C3: whenever reading the WAV container raises — a failing open, or
the zero-rate division inside the `with` block — `get_audio_duration`
catches the exception, prints the warning line, and returns exactly 0;
its result type carries no exceptional outcome. -/
theorem C3_duration_failure_returns_zero (env : Env) (path : String) :
    (∀ e : PyExn, env.wavRead path = .error e →
      get_audio_duration env path = (0, [durWarn e])) ∧
    (∀ info : WavInfo, env.wavRead path = .ok info → info.framerate = 0 →
      get_audio_duration env path = (0, [durWarn "float division by zero"])) := by
  constructor
  · intro e h
    simp [get_audio_duration, get_audio_duration_st, withClosingWav, h]
  · intro info h h0
    simp [get_audio_duration, get_audio_duration_st, withClosingWav, h,
      durationBody, h0]

/-- Witness for C3 at a concrete unreadable file. -/
theorem C3_duration_failure_returns_zero_witness :
    envWavFail.wavRead "noise.bin" = .error "file does not start with RIFF id" ∧
    get_audio_duration envWavFail "noise.bin"
      = (0, [durWarn "file does not start with RIFF id"]) :=
  ⟨rfl, (C3_duration_failure_returns_zero envWavFail "noise.bin").1 _ rfl⟩

/-- C4: on a readable WAV with a nonzero sample rate the duration is
`round(frames / rate, 2)`, and on every input — readable or not — the
returned duration is nonnegative. -/
theorem C4_duration_formula_and_nonneg (env : Env) (path : String) :
    (∀ info : WavInfo, env.wavRead path = .ok info → info.framerate ≠ 0 →
      (get_audio_duration env path).1
        = pyRound2 ((info.nframes : ℚ) / (info.framerate : ℚ))) ∧
    0 ≤ (get_audio_duration env path).1 := by
  constructor
  · intro info h h0
    simp [get_audio_duration, get_audio_duration_st, withClosingWav, h,
      durationBody, h0]
  · rcases hw : env.wavRead path with e | info
    · simp [get_audio_duration, get_audio_duration_st, withClosingWav, hw]
    · by_cases h0 : info.framerate = 0
      · simp [get_audio_duration, get_audio_duration_st, withClosingWav, hw,
          durationBody, h0]
      · have hval : (get_audio_duration env path).1
            = pyRound2 ((info.nframes : ℚ) / (info.framerate : ℚ)) := by
          simp [get_audio_duration, get_audio_duration_st, withClosingWav, hw,
            durationBody, h0]
        rw [hval]
        exact pyRound2_nonneg
          (div_nonneg (Nat.cast_nonneg _) (Nat.cast_nonneg _))

/-- Witness for C4 on a 80000-frame, 16000 Hz file: the duration is the
rounded quotient, which evaluates to 5, and is nonnegative. -/
theorem C4_duration_formula_and_nonneg_witness :
    envHappy.wavRead "sample.wav" = .ok ⟨80000, 16000⟩ ∧
    (get_audio_duration envHappy "sample.wav").1
      = pyRound2 (((80000 : ℕ) : ℚ) / ((16000 : ℕ) : ℚ)) ∧
    pyRound2 (((80000 : ℕ) : ℚ) / ((16000 : ℕ) : ℚ)) = 5 ∧
    0 ≤ (get_audio_duration envHappy "sample.wav").1 := by
  refine ⟨rfl,
    (C4_duration_formula_and_nonneg envHappy "sample.wav").1 ⟨80000, 16000⟩ rfl
      (by decide),
    ?_,
    (C4_duration_formula_and_nonneg envHappy "sample.wav").2⟩
  have h : ((((80000 : ℕ) : ℚ) / ((16000 : ℕ) : ℚ)) * 100) = ((500 : ℤ) : ℚ) := by
    norm_num
  rw [pyRound2, h, roundHalfEven_intCast]
  norm_num

/-- C5: with the audio loaded, an unintelligible-audio outcome returns
the fixed warning string and an unreachable-service outcome returns the
Google-API error string with its cause; in both cases the pipeline still
produces a report whose duration field is the normally computed duration. -/
theorem C5_failure_texts_still_reported (env : Env) (inp : MainInput)
    (disk : Disk) (path : String) (ev0 : List Event)
    (h : env.audioLoad path = .ok ()) :
    (env.recognize path = .unknownValue →
      transcribe_audio env path = .ok unclearMsg ∧
      Event.reportProduced
          (formatReport path (get_audio_duration env path).1 env.now unclearMsg)
        ∈ (mainRest env inp disk path ev0).1) ∧
    (∀ e : String, env.recognize path = .requestError e →
      transcribe_audio env path = .ok (apiErrMsg e) ∧
      Event.reportProduced
          (formatReport path (get_audio_duration env path).1 env.now (apiErrMsg e))
        ∈ (mainRest env inp disk path ev0).1) := by
  have hmem : ∀ t : String, transcribe_audio env path = .ok t →
      Event.reportProduced
          (formatReport path (get_audio_duration env path).1 env.now t)
        ∈ (mainRest env inp disk path ev0).1 := by
    intro t ht
    simp only [mainRest, ht]
    apply saveStep_mem
    simp
  constructor
  · intro hr
    have ht : transcribe_audio env path = .ok unclearMsg := by
      simp [transcribe_audio, h, hr]
    exact ⟨ht, hmem _ ht⟩
  · intro e hr
    have ht : transcribe_audio env path = .ok (apiErrMsg e) := by
      simp [transcribe_audio, h, hr]
    exact ⟨ht, hmem _ ht⟩

/-- Witness for C5: both failure outcomes at concrete environments. -/
theorem C5_failure_texts_still_reported_witness :
    envUnk.recognize "sample.wav" = .unknownValue ∧
    transcribe_audio envUnk "sample.wav" = .ok unclearMsg ∧
    Event.reportProduced
        (formatReport "sample.wav" (get_audio_duration envUnk "sample.wav").1
          envUnk.now unclearMsg)
      ∈ (mainRest envUnk ⟨"sample.wav", "n", "out.txt"⟩ diskEmpty "sample.wav" []).1 ∧
    transcribe_audio envReq "sample.wav"
      = .ok (apiErrMsg "recognition connection failed") ∧
    Event.reportProduced
        (formatReport "sample.wav" (get_audio_duration envReq "sample.wav").1
          envReq.now (apiErrMsg "recognition connection failed"))
      ∈ (mainRest envReq ⟨"sample.wav", "n", "out.txt"⟩ diskEmpty "sample.wav" []).1 := by
  have h1 := (C5_failure_texts_still_reported envUnk
    ⟨"sample.wav", "n", "out.txt"⟩ diskEmpty "sample.wav" [] rfl).1 rfl
  have h2 := (C5_failure_texts_still_reported envReq
    ⟨"sample.wav", "n", "out.txt"⟩ diskEmpty "sample.wav" [] rfl).2
    "recognition connection failed" rfl
  exact ⟨rfl, h1.1, h1.2, h2.1, h2.2⟩

/-- C6: the save prompt triggers exactly on input `y` compared
case-insensitively after stripping surrounding whitespace — that is, on
stripped input `y` or `Y`; when triggered and the open succeeds, the
filename prompt is shown and the exact report text is written at the
stripped filename, overwriting whatever the disk held there; any other
input leaves events and disk exactly unchanged. -/
theorem C6_save_gate (env : Env) (inp : MainInput) (report : String)
    (ev : List Event) (disk : Disk) :
    (pyLower (pyStrip inp.saveChoiceRaw) = "y"
      ↔ pyStrip inp.saveChoiceRaw = "y" ∨ pyStrip inp.saveChoiceRaw = "Y") ∧
    (pyLower (pyStrip inp.saveChoiceRaw) = "y" →
      env.fileOpenWrite (pyStrip inp.outputFileRaw) = .ok () →
      (saveStep env inp report (ev, disk)).1
        = ev ++ [.prompted savePrompt,
                 .fileWritten (pyStrip inp.outputFileRaw) report,
                 .printed ("Transcription saved to '"
                   ++ pyStrip inp.outputFileRaw ++ "'")] ∧
      (saveStep env inp report (ev, disk)).2 (pyStrip inp.outputFileRaw)
        = some report) ∧
    (pyLower (pyStrip inp.saveChoiceRaw) ≠ "y" →
      saveStep env inp report (ev, disk) = (ev, disk)) := by
  refine ⟨pyLower_eq_y _, ?_, ?_⟩
  · intro hy hw
    constructor
    · simp [saveStep, hy, hw]
    · simp [saveStep, hy, hw, diskWrite]
  · intro hn
    simp [saveStep, hn]

/-- Witness for C6: a padded uppercase `Y` triggers the write and the
report lands on disk; the input `no` leaves everything unchanged. -/
theorem C6_save_gate_witness :
    pyStrip "  Y " = "Y" ∧
    pyLower (pyStrip "  Y ") = "y" ∧
    envHappy.fileOpenWrite (pyStrip "out.txt") = .ok () ∧
    (saveStep envHappy ⟨"sample.wav", "  Y ", "out.txt"⟩ "REPORT"
      ([], diskEmpty)).2 "out.txt" = some "REPORT" ∧
    saveStep envHappy ⟨"sample.wav", "no", "out.txt"⟩ "REPORT" ([], diskEmpty)
      = ([], diskEmpty) := by
  refine ⟨by decide, by decide, rfl, ?_, ?_⟩
  · have h := ((C6_save_gate envHappy ⟨"sample.wav", "  Y ", "out.txt"⟩ "REPORT"
      [] diskEmpty).2.1 (by decide) rfl).2
    have e : pyStrip "out.txt" = "out.txt" := by decide
    rw [e] at h
    exact h
  · exact (C6_save_gate envHappy ⟨"sample.wav", "no", "out.txt"⟩ "REPORT"
      [] diskEmpty).2.2 (by decide)

/-- C7: when the stripped entered path does not exist, the whole run is
the single printed line `Error: File not found.` with the disk unchanged:
no conversion, duration read, transcription or report happens. -/
theorem C7_missing_file_aborts (env : Env) (inp : MainInput) (disk : Disk)
    (h : env.fsExists (pyStrip inp.filePathRaw) = false) :
    mainProgram env inp disk = ([.printed "Error: File not found."], disk) := by
  simp [mainProgram, h]

/-- Witness for C7 at a concrete missing file. -/
theorem C7_missing_file_aborts_witness :
    envMissing.fsExists (pyStrip "missing.wav") = false ∧
    mainProgram envMissing ⟨"missing.wav", "y", "out.txt"⟩ diskEmpty
      = ([.printed "Error: File not found."], diskEmpty) :=
  ⟨rfl, C7_missing_file_aborts envMissing ⟨"missing.wav", "y", "out.txt"⟩
    diskEmpty rfl⟩

/-- C8: the report is a deterministic function of path, duration,
timestamp and transcription text — two applications at identical inputs
are identical — and the transcription text is interpolated into a frame
that does not depend on it, so success, warning and error texts are
formatted identically. -/
theorem C8_report_deterministic_uniform (p : String) (d : ℚ) (ts : String) :
    (∀ t : String, formatReport p d ts t = formatReport p d ts t) ∧
    ∃ pre post : String, ∀ t : String, formatReport p d ts t = pre ++ t ++ post := by
  refine ⟨fun _ => rfl,
    ⟨"\n" ++ bannerLine ++ "\n" ++ "TRANSCRIPTION REPORT\n" ++ bannerLine ++ "\n"
      ++ "File Name     : " ++ p ++ "\n"
      ++ "Duration      : " ++ durRender d ++ " seconds\n"
      ++ "Time Processed: " ++ ts ++ "\n"
      ++ "\nTranscribed Text:\n\n",
     "\n" ++ bannerLine, fun t => ?_⟩⟩
  simp [formatReport, String.append_assoc]

/-- C9: the audio file handle opened for the duration read is closed on
every exit path of the `with contextlib.closing` block — failing open,
raising body, and normal return all leave the handle state unchanged. -/
theorem C9_wav_handle_closed (env : Env) (path : String) (s : FileState) :
    (get_audio_duration_st env path s).2 = s := by
  obtain ⟨n⟩ := s
  rcases hw : env.wavRead path with e | info
  · simp [get_audio_duration_st, withClosingWav, hw]
  · by_cases h0 : info.framerate = 0 <;>
      simp [get_audio_duration_st, withClosingWav, hw, durationBody, h0]

/-- C10 (amended): for a stripped path with no dot the derived extension
is the entire lowercased path, so the MP3 branch matches exactly when the
whole lowercased path is `mp3`; whenever it is not, the existing file is
passed through to the rest of the pipeline unchanged. -/
theorem C10_no_dot_passthrough (env : Env) (inp : MainInput) (disk : Disk)
    (hdot : '.' ∉ (pyStrip inp.filePathRaw).data) :
    pyExt (pyStrip inp.filePathRaw) = pyLower (pyStrip inp.filePathRaw) ∧
    (pyExt (pyStrip inp.filePathRaw) = "mp3"
      ↔ pyLower (pyStrip inp.filePathRaw) = "mp3") ∧
    (env.fsExists (pyStrip inp.filePathRaw) = true →
      pyLower (pyStrip inp.filePathRaw) ≠ "mp3" →
      mainProgram env inp disk
        = mainRest env inp disk (pyStrip inp.filePathRaw) []) := by
  have h1 : pyExt (pyStrip inp.filePathRaw) = pyLower (pyStrip inp.filePathRaw) := by
    unfold pyExt lastDotSegment
    rw [splitOnDot_no_dot hdot]
    simp
  refine ⟨h1, by rw [h1], ?_⟩
  intro hex hne
  simp [mainProgram, hex, h1, hne]

/-- C10 as stated is false: the dotless path `MP3` does match the MP3
branch, because the derived extension is the entire lowercased path. -/
theorem C10_dotless_mp3_matches_branch :
    '.' ∉ ("MP3" : String).data ∧
    pyExt "MP3" = "mp3" ∧
    (mainProgram envConvFail ⟨"MP3", "n", "out.txt"⟩ diskEmpty).1
      = [.printed "Converting MP3 to WAV...",
         .printed ("Error during conversion: "
           ++ "Decoding failed. ffmpeg returned error code: 1")] := by
  refine ⟨by decide, by decide, by decide⟩

/-- Witness for the amended C10 theorem at a concrete dotless path. -/
theorem C10_no_dot_passthrough_witness :
    '.' ∉ (pyStrip "audiofile").data ∧
    pyExt (pyStrip "audiofile") = pyLower (pyStrip "audiofile") ∧
    pyLower (pyStrip "audiofile") ≠ "mp3" ∧
    mainProgram envHappy ⟨"audiofile", "n", "out.txt"⟩ diskEmpty
      = mainRest envHappy ⟨"audiofile", "n", "out.txt"⟩ diskEmpty
          (pyStrip "audiofile") [] := by
  refine ⟨by decide, ?_, by decide, ?_⟩
  · exact (C10_no_dot_passthrough envHappy ⟨"audiofile", "n", "out.txt"⟩
      diskEmpty (by decide)).1
  · exact (C10_no_dot_passthrough envHappy ⟨"audiofile", "n", "out.txt"⟩
      diskEmpty (by decide)).2.2 rfl (by decide)
